import Mathlib

/-!
Shallow embedding of `grizzled/decorators.py`: the `deprecated` and
`abstract` function decorators.

A Python callable is modelled as a `Func`: its identity metadata
(`__name__`, `__doc__`, `__dict__`) together with a body.  The body maps an
argument to the list of warnings it emits (the observable side effects of
one invocation, in emission order) and an `Except` value: `Except.ok` models
a normal return, `Except.error` models a raised exception.
-/

namespace Grizzled

/-- Warning categories passed to `warnings.warn`; the decorator uses
`DeprecationWarning`. -/
inductive WarnCategory where
  | deprecationWarning
  | userWarning
deriving DecidableEq, Repr

/-- One call to `warnings.warn(text, category=..., stacklevel=...)`. -/
structure Warning where
  text : String
  category : WarnCategory
  stacklevel : Nat
deriving DecidableEq, Repr

/-- Python exceptions relevant to this module: `NotImplementedError`
(raised by `abstract`'s wrapper) and any other exception a wrapped body
may raise. -/
inductive PyExc where
  | notImplementedError (msg : String)
  | userError (msg : String)
deriving DecidableEq, Repr

/-- A Python callable: identity metadata plus a body.  Invoking it on `a`
yields the warnings it emits and either a result or a raised exception. -/
structure Func (α β : Type) where
  name : String
  doc : Option String
  dict : List (String × String)
  body : α → List Warning × Except PyExc β

/-- The first step of composing `buf` in `deprecated`'s `decorator`
(decorators.py lines 62-66): `'Method %s is deprecated.' % func.__name__`
when `since is None`, else
`'Method %s has been deprecated since version %s.' % (func.__name__, since)`. -/
def sinceText (funcName : String) (since : Option String) : String :=
  match since with
  | none => "Method " ++ funcName ++ " is deprecated."
  | some s => "Method " ++ funcName ++ " has been deprecated since version " ++ s ++ "."

/-- The warning text composed by `deprecated`'s `decorator` before the
wrapper is defined (decorators.py lines 61-69): the since-dependent `buf`,
then, when `message` is truthy (non-`None` and non-empty),
`buf += ' ' + message`. -/
def deprecatedBuf (funcName : String) (since message : Option String) : String :=
  match message with
  | none => sinceText funcName since
  | some m =>
      if m = "" then sinceText funcName since
      else sinceText funcName since ++ " " ++ m

/-- `deprecated(since, message)` applied to `func`
(decorators.py lines 60-79): the returned wrapper emits
`warnings.warn(buf, category=DeprecationWarning, stacklevel=2)` and then
delegates to `func` unchanged; `__name__`, `__dict__` and `__doc__` are
copied from `func`. -/
def deprecated {α β : Type} (since message : Option String) (func : Func α β) :
    Func α β :=
  let buf := deprecatedBuf func.name since message
  let wrapper : α → List Warning × Except PyExc β := fun a =>
    let r := func.body a
    (⟨buf, WarnCategory.deprecationWarning, 2⟩ :: r.1, r.2)
  { name := func.name, doc := func.doc, dict := func.dict, body := wrapper }

/-- `abstract(func)` (decorators.py lines 106-113): the returned wrapper
raises `NotImplementedError('Missing required %s() method' % func.__name__)`
on every invocation; `__name__`, `__dict__` and `__doc__` are copied from
`func`. -/
def abstract {α β : Type} (func : Func α β) : Func α β :=
  { name := func.name, doc := func.doc, dict := func.dict,
    body := fun _ =>
      ([], Except.error (PyExc.notImplementedError
        ("Missing required " ++ func.name ++ "() method"))) }

/-- The text of the first warning emitted by invoking `g` on `a`, if any. -/
def emittedNotice {α β : Type} (g : Func α β) (a : α) : Option String :=
  ((g.body a).1.head?).map Warning.text

/-- Invoke `g` once per element of `as`, collecting each call's outcome. -/
def invokeAll {α β : Type} (g : Func α β) (as : List α) :
    List (List Warning × Except PyExc β) :=
  as.map g.body

/-- A sample callable `f(a) = a * 2` emitting no warnings, used as a
concrete test subject. -/
def exampleF : Func Nat Nat :=
  { name := "f", doc := some "doubles its argument", dict := [],
    body := fun a => ([], Except.ok (a * 2)) }

/-- A sample callable that always raises, used to test propagation. -/
def raisingF : Func Nat Nat :=
  { name := "g", doc := none, dict := [],
    body := fun _ => ([], Except.error (PyExc.userError "boom")) }

/-- A sample callable whose body's execution is observable: it emits a
marker warning on every call. -/
def markerF : Func Nat Nat :=
  { name := "foo", doc := some "placeholder", dict := [("attr", "v")],
    body := fun a => ([⟨"side effect", WarnCategory.userWarning, 1⟩], Except.ok a) }

/-- A callable with the same metadata as `markerF` but a different body. -/
def altBodyF : Func Nat Nat :=
  { name := "foo", doc := some "placeholder", dict := [("attr", "v")],
    body := fun a => ([], Except.ok (a + 1)) }

theorem string_append_assoc (a b c : String) : a ++ b ++ c = a ++ (b ++ c) := by
  cases a; cases b; cases c
  show String.mk _ = String.mk _
  rw [List.append_assoc]

theorem string_append_empty (a : String) : a ++ "" = a := by
  cases a
  show String.mk _ = String.mk _
  rw [List.append_nil]

theorem deprecatedBuf_message (n : String) (s : Option String) (m : String)
    (hm : m ≠ "") :
    deprecatedBuf n s (some m) = deprecatedBuf n s none ++ (" " ++ m) := by
  show (if m = "" then sinceText n s else sinceText n s ++ " " ++ m) = _
  rw [if_neg hm, string_append_assoc]
  rfl

theorem sinceText_empty (n : String) :
    sinceText n (some "") =
      "Method " ++ n ++ " " ++ "has been deprecated since version ." := by
  show "Method " ++ n ++ " has been deprecated since version " ++ "" ++ "." = _
  rw [string_append_empty, string_append_assoc]
  rw [(by decide : (" has been deprecated since version " : String) ++ "." =
        " " ++ "has been deprecated since version .")]
  rw [← string_append_assoc]

/-- C1 counterexample: for the callable named `f`, wrapped with no version
and no extra message, the notice emitted by an invocation is
`"Method f is deprecated."`, not `"f is deprecated."` as the claim states:
the code prefixes every notice with `"Method "`. -/
theorem notice_text_counterexample :
    emittedNotice (deprecated none none exampleF) 5 =
      some "Method f is deprecated." ∧
    emittedNotice (deprecated none none exampleF) 5 ≠
      some "f is deprecated." := by
  constructor
  · decide
  · decide

/-- C1 (amended): the notice emitted by an invocation of the wrapped
callable equals `"Method <f.name> is deprecated."` when no version is
given, equals `"Method <f.name> has been deprecated since version <v>."`
when `v` is given, and when a non-empty extra message `m` is given the
notice is the version-dependent text followed by a space and `m` (hence
ends with `" " ++ m`). -/
theorem notice_text_amended {α β : Type} (f : Func α β) (a : α) (v m : String)
    (s : Option String) (hm : m ≠ "") :
    emittedNotice (deprecated none none f) a =
      some ("Method " ++ f.name ++ " is deprecated.") ∧
    emittedNotice (deprecated (some v) none f) a =
      some ("Method " ++ f.name ++ " has been deprecated since version " ++ v ++ ".") ∧
    emittedNotice (deprecated s (some m) f) a =
      some (deprecatedBuf f.name s none ++ (" " ++ m)) := by
  refine ⟨rfl, rfl, ?_⟩
  show some (deprecatedBuf f.name s (some m)) = _
  rw [deprecatedBuf_message f.name s m hm]

/-- C1 amended witness at `f := exampleF`, `a := 5`, `v := "1.2"`,
`m := "Use g instead."`, `s := some "1.2"`. -/
theorem notice_text_amended_witness :
    emittedNotice (deprecated none none exampleF) 5 =
      some ("Method " ++ exampleF.name ++ " is deprecated.") ∧
    emittedNotice (deprecated (some "1.2") none exampleF) 5 =
      some ("Method " ++ exampleF.name ++
        " has been deprecated since version " ++ "1.2" ++ ".") ∧
    emittedNotice (deprecated (some "1.2") (some "Use g instead.") exampleF) 5 =
      some (deprecatedBuf exampleF.name (some "1.2") none ++ (" " ++ "Use g instead.")) :=
  notice_text_amended exampleF 5 "1.2" "Use g instead." (some "1.2") (by decide)

/-- C2: invoking `abstract f` on any argument raises `NotImplementedError`
with message `"Missing required <f.name>() method"`, emits no side effect
of `f`'s body (the warning trace is empty), and the outcome is identical
for any callable `g` with the same name and an arbitrary different body,
so the original body is never executed. -/
theorem abstract_always_raises {α β : Type} (f g : Func α β) (a : α)
    (hg : g.name = f.name) :
    ((abstract f).body a).1 = [] ∧
    ((abstract f).body a).2 = Except.error (PyExc.notImplementedError
      ("Missing required " ++ f.name ++ "() method")) ∧
    (abstract g).body a = (abstract f).body a := by
  refine ⟨rfl, rfl, ?_⟩
  simp only [abstract, hg]

/-- C2 witness: `markerF`'s body emits a marker warning on every call, yet
the `abstract`-wrapped call emits nothing and raises; `altBodyF` has the
same name and a different body and behaves identically when wrapped. -/
theorem abstract_always_raises_witness :
    ((abstract markerF).body 7).1 = [] ∧
    ((abstract markerF).body 7).2 = Except.error (PyExc.notImplementedError
      ("Missing required " ++ markerF.name ++ "() method")) ∧
    (abstract altBodyF).body 7 = (abstract markerF).body 7 :=
  abstract_always_raises markerF altBodyF 7 rfl

/-- C3: invoking `deprecated since message f` on `a` returns exactly what
`f a` returns, and its warning trace is the single deprecation notice
prepended (hence emitted before any effect of the original body) to `f`'s
own trace: exactly one notice is added per invocation. -/
theorem deprecated_delegates {α β : Type} (f : Func α β) (s m : Option String)
    (a : α) :
    ((deprecated s m f).body a).2 = (f.body a).2 ∧
    ((deprecated s m f).body a).1 =
      ⟨deprecatedBuf f.name s m, WarnCategory.deprecationWarning, 2⟩ :: (f.body a).1 ∧
    ((deprecated s m f).body a).1.length = (f.body a).1.length + 1 :=
  ⟨rfl, rfl, rfl⟩

/-- C4: both wrappers copy the original callable's `__name__` and
`__doc__` (decorators.py lines 76-78 and 110-112), so the wrapped
callable's name and documentation text equal the original's. -/
theorem wrappers_preserve_identity {α β : Type} (f : Func α β)
    (s m : Option String) :
    (deprecated s m f).name = f.name ∧ (deprecated s m f).doc = f.doc ∧
    (abstract f).name = f.name ∧ (abstract f).doc = f.doc :=
  ⟨rfl, rfl, rfl, rfl⟩

/-- C5: if invoking `f` on `a` raises exception `e`, invoking the
`deprecated`-wrapped `f` on `a` raises the very same `e`: the wrapper
returns `func(*__args, **__kw)` with no surrounding handler. -/
theorem deprecated_propagates_failures {α β : Type} (f : Func α β)
    (s m : Option String) (a : α) (e : PyExc)
    (h : (f.body a).2 = Except.error e) :
    ((deprecated s m f).body a).2 = Except.error e := h

/-- C5 witness at the always-raising callable `raisingF`. -/
theorem deprecated_propagates_failures_witness :
    ((deprecated (some "1.2") none raisingF).body 3).2 =
      Except.error (PyExc.userError "boom") :=
  deprecated_propagates_failures raisingF (some "1.2") none 3
    (PyExc.userError "boom") rfl

/-- C6: invoking a `deprecated`-wrapped callable once per element of `as`
emits exactly `as.length` deprecation notices (for a body that emits no
warnings of its own, the concatenated trace is exactly `as.length` copies
of the notice): no suppression, deduplication or throttling. -/
theorem deprecated_no_throttling {α β : Type} (f : Func α β)
    (s m : Option String) (as : List α) (h : ∀ a, (f.body a).1 = []) :
    ((invokeAll (deprecated s m f) as).map Prod.fst).flatten =
      List.replicate as.length
        ⟨deprecatedBuf f.name s m, WarnCategory.deprecationWarning, 2⟩ := by
  induction as with
  | nil => rfl
  | cons a as ih =>
    show ((deprecated s m f).body a).1 ++
        ((invokeAll (deprecated s m f) as).map Prod.fst).flatten = _
    rw [show ((deprecated s m f).body a).1 =
        ⟨deprecatedBuf f.name s m, WarnCategory.deprecationWarning, 2⟩ ::
          (f.body a).1 from rfl]
    rw [h a, ih]
    rfl

/-- C6 witness: three invocations of the wrapped `exampleF` emit exactly
three notices. -/
theorem deprecated_no_throttling_witness :
    ((invokeAll (deprecated none none exampleF) [1, 2, 3]).map Prod.fst).flatten =
      List.replicate 3
        ⟨deprecatedBuf exampleF.name none none,
          WarnCategory.deprecationWarning, 2⟩ :=
  deprecated_no_throttling exampleF none none [1, 2, 3] (fun _ => rfl)

/-- C7: the notice text is `deprecatedBuf f.name s m`, a pure function of
the original callable's name and the `since`/`message` arguments captured
at wrap time; every invocation emits exactly that text, so any two
invocations emit the same text. -/
theorem deprecated_text_fixed {α β : Type} (f : Func α β)
    (s m : Option String) (a₁ a₂ : α) :
    emittedNotice (deprecated s m f) a₁ = some (deprecatedBuf f.name s m) ∧
    emittedNotice (deprecated s m f) a₁ = emittedNotice (deprecated s m f) a₂ :=
  ⟨rfl, rfl⟩

/-- C8: the notice emitted first by any invocation of a wrapped callable
carries category `DeprecationWarning` and `stacklevel = 2`; level 1 would
be the wrapper's own frame, so level 2 attributes the warning to the
caller of the wrapped callable. -/
theorem deprecated_category_stacklevel {α β : Type} (f : Func α β)
    (s m : Option String) (a : α) :
    (((deprecated s m f).body a).1.head?).map Warning.category =
      some WarnCategory.deprecationWarning ∧
    (((deprecated s m f).body a).1.head?).map Warning.stacklevel = some 2 :=
  ⟨rfl, rfl⟩

/-- C9: wrapping with the empty version string `since = ""` (which is not
`None`) takes the version-stamped branch, because the code tests
`since is None`, not truthiness: the emitted notice is
`"Method <f.name> "` followed by `"has been deprecated since version ."`,
so it contains that substring. -/
theorem deprecated_empty_since_stamped {α β : Type} (f : Func α β) (a : α) :
    emittedNotice (deprecated (some "") none f) a =
      some (("Method " ++ f.name ++ " ") ++ "has been deprecated since version .") := by
  show some (sinceText f.name (some "")) = _
  rw [sinceText_empty]

/-- C10: everything either wrapper computes at wrap time — the wrapper's
name, doc and dict, the deprecation text, and (for `abstract`) even the
entire invocation outcome — is determined by the original callable's
metadata alone: two callables with equal name, doc and dict but arbitrary
different bodies yield identical wrap-time results, so wrapping never
executes the body. -/
theorem wrap_reads_only_metadata {α β : Type} (f g : Func α β)
    (s m : Option String) (a : α) (h₁ : g.name = f.name)
    (h₂ : g.doc = f.doc) (h₃ : g.dict = f.dict) :
    (deprecated s m g).name = (deprecated s m f).name ∧
    (deprecated s m g).doc = (deprecated s m f).doc ∧
    (deprecated s m g).dict = (deprecated s m f).dict ∧
    deprecatedBuf g.name s m = deprecatedBuf f.name s m ∧
    (abstract g).name = (abstract f).name ∧
    (abstract g).doc = (abstract f).doc ∧
    (abstract g).dict = (abstract f).dict ∧
    (abstract g).body a = (abstract f).body a := by
  refine ⟨h₁, h₂, h₃, by rw [h₁], h₁, h₂, h₃, ?_⟩
  simp only [abstract, h₁]

/-- C10 witness: `markerF` and `altBodyF` share metadata but have
different bodies (one emits a marker warning, the other does not); all
wrap-time results coincide. -/
theorem wrap_reads_only_metadata_witness :
    (deprecated (some "1.0") none altBodyF).name =
      (deprecated (some "1.0") none markerF).name ∧
    (deprecated (some "1.0") none altBodyF).doc =
      (deprecated (some "1.0") none markerF).doc ∧
    (deprecated (some "1.0") none altBodyF).dict =
      (deprecated (some "1.0") none markerF).dict ∧
    deprecatedBuf altBodyF.name (some "1.0") none =
      deprecatedBuf markerF.name (some "1.0") none ∧
    (abstract altBodyF).name = (abstract markerF).name ∧
    (abstract altBodyF).doc = (abstract markerF).doc ∧
    (abstract altBodyF).dict = (abstract markerF).dict ∧
    (abstract altBodyF).body 5 = (abstract markerF).body 5 :=
  wrap_reads_only_metadata markerF altBodyF (some "1.0") none 5 rfl rfl rfl

end Grizzled
